import Mathlib

/-!
# Verification of the HACKATHON_UI_2 authentication and security-telemetry engine

Shallow embedding of the repository's core components and proofs about them:

* `src/simple_backend/latency_tracker.py` — the `LatencyTracker` class
  (rolling window, lifetime counters, derived statistics).
* `src/simple_backend/security_metrics_db.py` — the security metrics store
  (request counters, threat-vector upserts, ranked summary).
* `src/backend/app/routers/auth.py` — the `login` flow (audit records,
  security events, brute-force detection).

Python floats are modelled as exact rationals (`ℚ`); machine timestamps as
`Nat`.  Python's `sorted` (a stable sort) is modelled by `List.insertionSort`,
which is also stable; on rationals the sorted output is unique anyway.
-/

namespace HackathonUI

/-! ## Latency tracker — `src/simple_backend/latency_tracker.py` -/

/-- `collections.deque(maxlen := m)` append semantics: the new element goes to
the right and, when the deque is full, the oldest (leftmost) element is evicted.
Written uniformly: keep the last `maxlen` elements of `xs ++ [x]`. -/
def dequeAppend (maxlen : Nat) (xs : List ℚ) (x : ℚ) : List ℚ :=
  let ys := xs ++ [x]
  if ys.length ≤ maxlen then ys else ys.drop (ys.length - maxlen)

/-- State of `LatencyTracker` (latency_tracker.py:18-34).  `latencies_ms` holds
the rolling window `_latencies_ms`, most recent element last. -/
structure LatencyTracker where
  window_size : Nat
  sla_threshold_ms : ℚ
  latencies_ms : List ℚ
  total_requests : Nat
  sla_breaches : Nat
deriving DecidableEq

/-- `LatencyTracker.__init__` (latency_tracker.py:18-34): empty window, zero
counters. -/
def LatencyTracker.init (window_size : Nat) (sla_threshold_ms : ℚ) : LatencyTracker :=
  { window_size := window_size
    sla_threshold_ms := sla_threshold_ms
    latencies_ms := []
    total_requests := 0
    sla_breaches := 0 }

/-- `LatencyTracker.record_latency` (latency_tracker.py:65-77): append to the
bounded window, bump `total_requests`, bump `sla_breaches` iff the sample
strictly exceeds the SLA threshold. -/
def LatencyTracker.record_latency (t : LatencyTracker) (latency_ms : ℚ) : LatencyTracker :=
  { t with
    latencies_ms := dequeAppend t.window_size t.latencies_ms latency_ms
    total_requests := t.total_requests + 1
    sla_breaches :=
      if t.sla_threshold_ms < latency_ms then t.sla_breaches + 1 else t.sla_breaches }

/-- Python's `sorted` on the window: ascending, stable (`List.insertionSort`). -/
def sortedAsc (xs : List ℚ) : List ℚ :=
  List.insertionSort (fun a b => a ≤ b) xs

/-- `LatencyTracker.get_avg_latency_ms` (latency_tracker.py:79-89):
`statistics.mean`, guarded to `0.0` on an empty window. -/
def LatencyTracker.get_avg_latency_ms (t : LatencyTracker) : ℚ :=
  if t.latencies_ms.isEmpty then 0
  else t.latencies_ms.sum / (t.latencies_ms.length : ℚ)

/-- `LatencyTracker.get_median_latency_ms` (latency_tracker.py:91-101):
`statistics.median`, guarded to `0.0` on an empty window. -/
def LatencyTracker.get_median_latency_ms (t : LatencyTracker) : ℚ :=
  if t.latencies_ms.isEmpty then 0
  else
    let s := sortedAsc t.latencies_ms
    let n := s.length
    if n % 2 = 1 then s.getD (n / 2) 0
    else (s.getD (n / 2 - 1) 0 + s.getD (n / 2) 0) / 2

/-- `LatencyTracker.get_p95_latency_ms` (latency_tracker.py:103-115): sort the
window, index at `int(len * 0.95)` (exact arithmetic: `len * 95 / 100`, the
floor of `0.95 * len`), falling back to the last element if the index were out
of range. -/
def LatencyTracker.get_p95_latency_ms (t : LatencyTracker) : ℚ :=
  if t.latencies_ms.isEmpty then 0
  else
    let s := sortedAsc t.latencies_ms
    let index := s.length * 95 / 100
    if index < s.length then s.getD index 0 else s.getD (s.length - 1) 0

/-- `LatencyTracker.get_sla_status` (latency_tracker.py:117-125): based on the
rolling mean, not on individual samples. -/
def LatencyTracker.get_sla_status (t : LatencyTracker) : String :=
  if t.get_avg_latency_ms ≤ t.sla_threshold_ms then "within_sla" else "sla_breached"

/-- `LatencyTracker.reset` (latency_tracker.py:166-170): clear the window and
both lifetime counters. -/
def LatencyTracker.reset (t : LatencyTracker) : LatencyTracker :=
  { t with latencies_ms := [], total_requests := 0, sla_breaches := 0 }

/-- A sequence of `record_latency` calls, oldest first. -/
def recordAll (t : LatencyTracker) (xs : List ℚ) : LatencyTracker :=
  xs.foldl LatencyTracker.record_latency t

/-- The operations that mutate a `LatencyTracker`. -/
inductive TrackerOp where
  | record (latency_ms : ℚ) : TrackerOp
  | reset : TrackerOp

/-- Apply one tracker operation. -/
def applyOp (t : LatencyTracker) : TrackerOp → LatencyTracker
  | .record x => t.record_latency x
  | .reset => t.reset

/-- States reachable from a fresh tracker by a sequence of operations. -/
def runOps (w : Nat) (s : ℚ) (ops : List TrackerOp) : LatencyTracker :=
  ops.foldl applyOp (LatencyTracker.init w s)

/-! ### Helper lemmas about the rolling window -/

/-- The last `n` elements of a list. -/
def lastN (n : Nat) (l : List ℚ) : List ℚ :=
  l.drop (l.length - n)

theorem dequeAppend_eq_lastN (m : Nat) (xs : List ℚ) (x : ℚ) :
    dequeAppend m xs x = lastN m (xs ++ [x]) := by
  simp only [dequeAppend, lastN]
  split
  · rename_i h
    rw [Nat.sub_eq_zero_of_le h, List.drop_zero]
  · rfl

theorem lastN_length_le (n : Nat) (l : List ℚ) : (lastN n l).length ≤ n := by
  unfold lastN
  rw [List.length_drop]
  omega

theorem lastN_of_length_le (n : Nat) (l : List ℚ) (h : l.length ≤ n) : lastN n l = l := by
  unfold lastN
  rw [Nat.sub_eq_zero_of_le h, List.drop_zero]

theorem lastN_append_lastN (m : Nat) (a ys : List ℚ) :
    lastN m (lastN m a ++ ys) = lastN m (a ++ ys) := by
  unfold lastN
  have hk : a.length - m ≤ a.length := Nat.sub_le _ _
  rw [show a.drop (a.length - m) ++ ys = (a ++ ys).drop (a.length - m) by
        rw [List.drop_append_eq_append_drop, Nat.sub_eq_zero_of_le hk, List.drop_zero]]
  rw [List.drop_drop]
  congr 1
  simp only [List.length_drop, List.length_append]
  omega

theorem recordAll_latencies (xs : List ℚ) (t : LatencyTracker)
    (h : t.latencies_ms.length ≤ t.window_size) :
    (recordAll t xs).latencies_ms = lastN t.window_size (t.latencies_ms ++ xs) := by
  induction xs generalizing t with
  | nil =>
      simp only [recordAll, List.foldl_nil, List.append_nil]
      exact (lastN_of_length_le _ _ h).symm
  | cons x xs ih =>
      have hstep : (t.record_latency x).latencies_ms = lastN t.window_size (t.latencies_ms ++ [x]) := by
        simp only [LatencyTracker.record_latency]
        exact dequeAppend_eq_lastN _ _ _
      have hlen : (t.record_latency x).latencies_ms.length ≤ (t.record_latency x).window_size := by
        rw [hstep]
        exact lastN_length_le _ _
      have := ih (t.record_latency x) hlen
      simp only [recordAll, List.foldl_cons] at this ⊢
      rw [this, hstep]
      show lastN t.window_size (lastN t.window_size (t.latencies_ms ++ [x]) ++ xs) = _
      rw [lastN_append_lastN, List.append_assoc]
      rfl

theorem recordAll_total (xs : List ℚ) (t : LatencyTracker) :
    (recordAll t xs).total_requests = t.total_requests + xs.length := by
  induction xs generalizing t with
  | nil => simp [recordAll]
  | cons x xs ih =>
      simp only [recordAll, List.foldl_cons] at ih ⊢
      rw [ih, LatencyTracker.record_latency]
      simp only [List.length_cons]
      omega

theorem foldl_breaches_le (ops : List TrackerOp) (t : LatencyTracker)
    (h : t.sla_breaches ≤ t.total_requests) :
    (ops.foldl applyOp t).sla_breaches ≤ (ops.foldl applyOp t).total_requests := by
  induction ops generalizing t with
  | nil => exact h
  | cons op ops ih =>
      simp only [List.foldl_cons]
      apply ih
      cases op with
      | record x =>
          simp only [applyOp, LatencyTracker.record_latency]
          split <;> omega
      | reset => simp [applyOp, LatencyTracker.reset]

/-! ### Claims C6, C7, C9, C10 -/

/-- Claim C7: recording 150 samples into a tracker with window capacity 100
leaves the window holding exactly the 100 most recently recorded samples in
order (FIFO eviction of the oldest), while `total_requests` equals 150; and in
general `total_requests` equals the number of `record_latency` calls regardless
of window capacity. -/
theorem C7_window_eviction_and_lifetime_total (sla : ℚ) (xs : List ℚ)
    (h : xs.length = 150) :
    (recordAll (LatencyTracker.init 100 sla) xs).latencies_ms = xs.drop 50
    ∧ (recordAll (LatencyTracker.init 100 sla) xs).total_requests = 150
    ∧ ∀ (t : LatencyTracker) (ys : List ℚ),
        (recordAll t ys).total_requests = t.total_requests + ys.length := by
  refine ⟨?_, ?_, fun t ys => recordAll_total ys t⟩
  · rw [recordAll_latencies xs (LatencyTracker.init 100 sla) (by simp [LatencyTracker.init])]
    simp only [LatencyTracker.init, List.nil_append, lastN, h]
  · rw [recordAll_total]
    simp [LatencyTracker.init, h]

/-- Witness for C7 at a concrete sample list of length 150. -/
theorem C7_witness :
    (List.replicate 150 (7 : ℚ)).length = 150
    ∧ ((recordAll (LatencyTracker.init 100 50) (List.replicate 150 (7 : ℚ))).latencies_ms
          = (List.replicate 150 (7 : ℚ)).drop 50
        ∧ (recordAll (LatencyTracker.init 100 50) (List.replicate 150 (7 : ℚ))).total_requests = 150
        ∧ ∀ (t : LatencyTracker) (ys : List ℚ),
            (recordAll t ys).total_requests = t.total_requests + ys.length) :=
  ⟨List.length_replicate 150 7,
    C7_window_eviction_and_lifetime_total 50 _ (List.length_replicate 150 7)⟩

set_option maxRecDepth 100000

/-- Claim C6: on a non-empty window the p95 statistic is the element of the
sorted window at index `⌊0.95 · len⌋`, clamped to the last element if that
index were out of range (the clamp never fires: the index is always in range);
in particular the 100 samples `10, 20, ..., 1000` give sorted-index 95,
i.e. `960`. -/
theorem C6_p95_index (t : LatencyTracker) (h : t.latencies_ms ≠ []) :
    t.get_p95_latency_ms
        = (sortedAsc t.latencies_ms).getD
            (min (t.latencies_ms.length * 95 / 100) (t.latencies_ms.length - 1)) 0
    ∧ t.latencies_ms.length * 95 / 100 < t.latencies_ms.length
    ∧ (recordAll (LatencyTracker.init 100 50)
          ((List.range 100).map (fun i => ((10 * (i + 1) : Nat) : ℚ)))).get_p95_latency_ms = 960 := by
  have hn : 0 < t.latencies_ms.length := List.length_pos.mpr h
  have hslen : (sortedAsc t.latencies_ms).length = t.latencies_ms.length :=
    (List.perm_insertionSort _ _).length_eq
  have hidx : t.latencies_ms.length * 95 / 100 < t.latencies_ms.length := by
    rw [Nat.div_lt_iff_lt_mul (by omega : 0 < 100)]
    omega
  refine ⟨?_, hidx, by decide⟩
  unfold LatencyTracker.get_p95_latency_ms
  rw [if_neg (by simpa [List.isEmpty_iff] using h)]
  simp only [sortedAsc] at hslen ⊢
  rw [hslen, if_pos hidx, Nat.min_def, if_pos (by omega)]

/-- Witness for C6 at a concrete one-element window. -/
theorem C6_witness :
    ({ window_size := 100, sla_threshold_ms := 50, latencies_ms := [5],
       total_requests := 1, sla_breaches := 0 } : LatencyTracker).latencies_ms ≠ []
    ∧ (({ window_size := 100, sla_threshold_ms := 50, latencies_ms := [5],
          total_requests := 1, sla_breaches := 0 } : LatencyTracker).get_p95_latency_ms
          = (sortedAsc [5]).getD (min (([5] : List ℚ).length * 95 / 100) (([5] : List ℚ).length - 1)) 0
        ∧ ([5] : List ℚ).length * 95 / 100 < ([5] : List ℚ).length
        ∧ (recordAll (LatencyTracker.init 100 50)
              ((List.range 100).map (fun i => ((10 * (i + 1) : Nat) : ℚ)))).get_p95_latency_ms = 960) :=
  ⟨by decide, C6_p95_index _ (by decide)⟩

/-- Claim C9: on an empty window (as after construction or `reset`) the
average, median and p95 statistics all return `0.0` and the SLA status is
`"within_sla"` (for a non-negative SLA threshold, as configured); construction
and `reset` both produce an empty window. -/
theorem C9_empty_window_safe (t : LatencyTracker) (h : t.latencies_ms = [])
    (hs : 0 ≤ t.sla_threshold_ms) :
    t.get_avg_latency_ms = 0
    ∧ t.get_median_latency_ms = 0
    ∧ t.get_p95_latency_ms = 0
    ∧ t.get_sla_status = "within_sla"
    ∧ (∀ (w : Nat) (s : ℚ), (LatencyTracker.init w s).latencies_ms = [])
    ∧ (∀ t' : LatencyTracker, t'.reset.latencies_ms = []) := by
  have he : t.latencies_ms.isEmpty = true := by simp [h]
  refine ⟨?_, ?_, ?_, ?_, fun w s => rfl, fun t' => rfl⟩
  · simp [LatencyTracker.get_avg_latency_ms, he]
  · simp [LatencyTracker.get_median_latency_ms, he]
  · simp [LatencyTracker.get_p95_latency_ms, he]
  · simp [LatencyTracker.get_sla_status, LatencyTracker.get_avg_latency_ms, he, hs]

/-- Witness for C9 at a freshly constructed tracker. -/
theorem C9_witness :
    (LatencyTracker.init 100 50).latencies_ms = []
    ∧ (0 : ℚ) ≤ (LatencyTracker.init 100 50).sla_threshold_ms
    ∧ ((LatencyTracker.init 100 50).get_avg_latency_ms = 0
        ∧ (LatencyTracker.init 100 50).get_median_latency_ms = 0
        ∧ (LatencyTracker.init 100 50).get_p95_latency_ms = 0
        ∧ (LatencyTracker.init 100 50).get_sla_status = "within_sla"
        ∧ (∀ (w : Nat) (s : ℚ), (LatencyTracker.init w s).latencies_ms = [])
        ∧ (∀ t' : LatencyTracker, t'.reset.latencies_ms = [])) :=
  ⟨rfl, by decide, C9_empty_window_safe _ rfl (by decide)⟩

/-- Claim C10: in every state reachable from a fresh tracker by `record` and
`reset` operations, `0 ≤ sla_breaches ≤ total_requests`; each `record` call
bumps `total_requests` by one and `sla_breaches` by one exactly when the sample
exceeds the threshold, and `reset` zeroes both counters together. -/
theorem C10_counter_invariant (w : Nat) (s : ℚ) (ops : List TrackerOp) :
    (0 ≤ (runOps w s ops).sla_breaches
        ∧ (runOps w s ops).sla_breaches ≤ (runOps w s ops).total_requests)
    ∧ (∀ (t : LatencyTracker) (x : ℚ),
        (t.record_latency x).total_requests = t.total_requests + 1
        ∧ (t.record_latency x).sla_breaches
            = t.sla_breaches + (if t.sla_threshold_ms < x then 1 else 0))
    ∧ (∀ t : LatencyTracker, t.reset.total_requests = 0 ∧ t.reset.sla_breaches = 0) := by
  refine ⟨⟨Nat.zero_le _, foldl_breaches_le ops _ (by simp [LatencyTracker.init])⟩, ?_, ?_⟩
  · intro t x
    constructor
    · rfl
    · simp only [LatencyTracker.record_latency]
      split <;> simp
  · intro t
    exact ⟨rfl, rfl⟩

/-! ## Security metrics store — `src/simple_backend/security_metrics_db.py`

The sqlite tables are modelled in memory: `threat_vectors` (rows in insertion
order, `threat_type` unique) and the singleton `request_metrics` row.
`ORDER BY count DESC` is modelled as a stable sort on the row list; the spec
leaves the order of count ties unspecified and no claim below depends on it. -/

/-- A row of the `threat_vectors` table (security_metrics_db.py:35-44). -/
structure ThreatVector where
  threat_type : String
  count : Nat
  severity : String
  last_detected : Nat
deriving DecidableEq

/-- The metrics store: the singleton `request_metrics` row plus the
`threat_vectors` table. -/
structure MetricsDB where
  total_requests : Nat
  threats_blocked : Nat
  threats_flagged : Nat
  threat_vectors : List ThreatVector
deriving DecidableEq

/-- Descending-count ordering on threat-vector rows (`ORDER BY count DESC`). -/
def countGe (a b : ThreatVector) : Prop := b.count ≤ a.count

instance : DecidableRel countGe := fun a b => inferInstanceAs (Decidable (b.count ≤ a.count))

instance : IsTotal ThreatVector countGe := ⟨fun a b => Nat.le_total b.count a.count⟩

instance : IsTrans ThreatVector countGe := ⟨fun _ _ _ h1 h2 => Nat.le_trans h2 h1⟩

/-- `ORDER BY count DESC` over the whole table (stable in insertion order). -/
def sortByCountDesc (rows : List ThreatVector) : List ThreatVector :=
  List.insertionSort countGe rows

/-- The `ON CONFLICT(threat_type) DO UPDATE` upsert of
`record_threat_detection` (security_metrics_db.py:195-202): insert with
`count = 1` when the type is new, otherwise bump `count` and overwrite
`severity` and `last_detected` with the current observation. -/
def upsertThreat (ty sev : String) (now : Nat) : List ThreatVector → List ThreatVector
  | [] => [{ threat_type := ty, count := 1, severity := sev, last_detected := now }]
  | r :: rs =>
      if r.threat_type = ty then
        { r with count := r.count + 1, severity := sev, last_detected := now } :: rs
      else r :: upsertThreat ty sev now rs

/-- `increment_total_requests` (security_metrics_db.py:154-165). -/
def increment_total_requests (db : MetricsDB) : MetricsDB :=
  { db with total_requests := db.total_requests + 1 }

/-- `increment_threats_blocked` (security_metrics_db.py:168-179). -/
def increment_threats_blocked (db : MetricsDB) : MetricsDB :=
  { db with threats_blocked := db.threats_blocked + 1 }

/-- `record_threat_detection` (security_metrics_db.py:182-210): upsert the
threat vector, then bump the request counter, then bump the blocked counter
iff `blocked`. -/
def record_threat_detection (db : MetricsDB) (threat_type severity : String)
    (blocked : Bool) (now : Nat) : MetricsDB :=
  let db1 := { db with threat_vectors := upsertThreat threat_type severity now db.threat_vectors }
  let db2 := increment_total_requests db1
  if blocked then increment_threats_blocked db2 else db2

/-- `get_all_threat_vectors` (security_metrics_db.py:131-151): the whole table,
count-descending, no limit. -/
def get_all_threat_vectors (db : MetricsDB) : List ThreatVector :=
  sortByCountDesc db.threat_vectors

/-- Python's `round` (banker's rounding — ties go to the even integer) on an
exact rational. -/
def roundHalfEven (q : ℚ) : ℤ :=
  let f := ⌊q⌋
  if q - f < 1 / 2 then f
  else if (1 : ℚ) / 2 < q - f then f + 1
  else if f % 2 = 0 then f else f + 1

/-- `round(x, 2)` on an exact rational. -/
def round2 (q : ℚ) : ℚ := (roundHalfEven (q * 100) : ℚ) / 100

/-- The dictionary returned by `get_security_metrics_summary`
(security_metrics_db.py:278-290). -/
structure SecuritySummary where
  total_requests : Nat
  threats_blocked : Nat
  threats_flagged : Nat
  block_rate : ℚ
  top_threat_name : String
  top_threat_count : Nat
  top_threat_severity : String
  all_threat_vectors : List ThreatVector
deriving DecidableEq

/-- `get_security_metrics_summary` (security_metrics_db.py:213-290): totals,
rounded block rate (denominator floored at 1, and 0 when there are no
requests), the single highest-count vector (or the `"None detected"` default),
and the count-descending vector list truncated by `LIMIT 10`. -/
def get_security_metrics_summary (db : MetricsDB) : SecuritySummary :=
  let sorted := sortByCountDesc db.threat_vectors
  let top := sorted.head?
  { total_requests := db.total_requests
    threats_blocked := db.threats_blocked
    threats_flagged := db.threats_flagged
    block_rate :=
      round2 (if 0 < db.total_requests then
        ((db.threats_blocked : ℚ) / ((max db.total_requests 1 : Nat) : ℚ)) * 100
      else 0)
    top_threat_name := match top with | some r => r.threat_type | none => "None detected"
    top_threat_count := match top with | some r => r.count | none => 0
    top_threat_severity := match top with | some r => r.severity | none => "low"
    all_threat_vectors := sorted.take 10 }

/-- `reset_metrics` (security_metrics_db.py:293-312): zero the counters and
drop every threat vector. -/
def reset_metrics (db : MetricsDB) : MetricsDB :=
  { db with total_requests := 0, threats_blocked := 0, threats_flagged := 0,
            threat_vectors := [] }

/-- Row lookup by threat type (the `UNIQUE(threat_type)` key). -/
def findVector (rows : List ThreatVector) (ty : String) : Option ThreatVector :=
  rows.find? (fun r => r.threat_type == ty)

/-- A sequence of `record_threat_detection` calls for a fixed threat type;
each entry is `(severity, blocked, timestamp)`, oldest first. -/
def applyCalls (db : MetricsDB) (ty : String) (calls : List (String × Bool × Nat)) : MetricsDB :=
  calls.foldl (fun d c => record_threat_detection d ty c.1 c.2.1 c.2.2) db

/-! ### Helper lemmas about the metrics store -/

theorem record_threat_vectors (db : MetricsDB) (ty sev : String) (b : Bool) (now : Nat) :
    (record_threat_detection db ty sev b now).threat_vectors
      = upsertThreat ty sev now db.threat_vectors := by
  cases b <;> rfl

theorem upsert_absent (rows : List ThreatVector) (ty sev : String) (now : Nat)
    (h : findVector rows ty = none) :
    findVector (upsertThreat ty sev now rows) ty
      = some { threat_type := ty, count := 1, severity := sev, last_detected := now } := by
  induction rows with
  | nil => simp [findVector, upsertThreat]
  | cons r rs ih =>
      simp only [findVector, List.find?_cons] at h ⊢
      rcases hb : (r.threat_type == ty) with _ | _
      · rw [hb] at h
        have hne : ¬ r.threat_type = ty := by
          simpa using hb
        simp only [upsertThreat, if_neg hne, List.find?_cons, hb]
        exact ih h
      · rw [hb] at h
        simp at h

theorem upsert_present (rows : List ThreatVector) (ty sev : String) (now : Nat)
    (r : ThreatVector) (h : findVector rows ty = some r) :
    findVector (upsertThreat ty sev now rows) ty
      = some { threat_type := ty, count := r.count + 1, severity := sev, last_detected := now } := by
  induction rows with
  | nil => simp [findVector] at h
  | cons a rs ih =>
      simp only [findVector, List.find?_cons] at h ⊢
      rcases hb : (a.threat_type == ty) with _ | _
      · rw [hb] at h
        have hne : ¬ a.threat_type = ty := by
          simpa using hb
        simp only [upsertThreat, if_neg hne, List.find?_cons, hb]
        exact ih h
      · rw [hb] at h
        simp only [Option.some.injEq] at h
        have heq : a.threat_type = ty := by
          simpa using hb
        subst h
        simp only [upsertThreat, if_pos heq, List.find?_cons, heq]
        simp [heq]

/-! ### Claims C4, C5, C8 -/

/-- Claim C5: recording a threat type for the first time inserts its vector
with `count = 1`; every further detection of the same type bumps the count by
one and overwrites severity and timestamp with the most recent observation.
After any non-empty call sequence the stored row carries the number of calls
as its count and the last call's severity and timestamp. -/
theorem C5_upsert_policy (db : MetricsDB) (ty : String)
    (calls : List (String × Bool × Nat))
    (h0 : findVector db.threat_vectors ty = none) (hne : calls ≠ []) :
    ∃ last, calls.getLast? = some last
      ∧ findVector (applyCalls db ty calls).threat_vectors ty
          = some { threat_type := ty, count := calls.length,
                   severity := last.1, last_detected := last.2.2 } := by
  induction calls using List.reverseRecOn with
  | nil => exact absurd rfl hne
  | append_singleton l c ih =>
      have hsplit : applyCalls db ty (l ++ [c])
          = record_threat_detection (applyCalls db ty l) ty c.1 c.2.1 c.2.2 := by
        simp [applyCalls, List.foldl_append]
      cases l with
      | nil =>
          refine ⟨c, by simp, ?_⟩
          rw [hsplit, record_threat_vectors]
          have : applyCalls db ty [] = db := rfl
          rw [this]
          simpa using upsert_absent db.threat_vectors ty c.1 c.2.2 h0
      | cons x xs =>
          obtain ⟨last, hlast, hfind⟩ := ih (by simp)
          refine ⟨c, List.getLast?_concat _, ?_⟩
          rw [hsplit, record_threat_vectors]
          have := upsert_present _ ty c.1 c.2.2 _ hfind
          rw [this]
          simp [List.length_append]

/-- A metrics store with zeroed counters and no threat vectors. -/
def emptyMetricsDB : MetricsDB :=
  { total_requests := 0, threats_blocked := 0, threats_flagged := 0, threat_vectors := [] }

/-- Witness for C5: two detections of a fresh threat type leave count 2 and
the second call's severity and timestamp. -/
theorem C5_witness :
    findVector emptyMetricsDB.threat_vectors "Jailbreak" = none
    ∧ ([("high", true, 1), ("low", false, 2)] : List (String × Bool × Nat)) ≠ []
    ∧ ∃ last, ([("high", true, 1), ("low", false, 2)] : List (String × Bool × Nat)).getLast? = some last
        ∧ findVector (applyCalls emptyMetricsDB "Jailbreak"
              [("high", true, 1), ("low", false, 2)]).threat_vectors "Jailbreak"
            = some { threat_type := "Jailbreak", count := 2, severity := last.1,
                     last_detected := last.2.2 } :=
  ⟨by decide, by decide,
    C5_upsert_policy emptyMetricsDB "Jailbreak" [("high", true, 1), ("low", false, 2)]
      (by decide) (by decide)⟩

/-- A store holding eleven distinct threat vectors, used to exhibit the
`LIMIT 10` truncation in the summary. -/
def elevenVectorDB : MetricsDB :=
  { total_requests := 66, threats_blocked := 66, threats_flagged := 0,
    threat_vectors :=
      [ { threat_type := "t1", count := 11, severity := "low", last_detected := 0 },
        { threat_type := "t2", count := 10, severity := "low", last_detected := 0 },
        { threat_type := "t3", count := 9, severity := "low", last_detected := 0 },
        { threat_type := "t4", count := 8, severity := "low", last_detected := 0 },
        { threat_type := "t5", count := 7, severity := "low", last_detected := 0 },
        { threat_type := "t6", count := 6, severity := "low", last_detected := 0 },
        { threat_type := "t7", count := 5, severity := "low", last_detected := 0 },
        { threat_type := "t8", count := 4, severity := "low", last_detected := 0 },
        { threat_type := "t9", count := 3, severity := "low", last_detected := 0 },
        { threat_type := "t10", count := 2, severity := "low", last_detected := 0 },
        { threat_type := "t11", count := 1, severity := "low", last_detected := 0 } ] }

/-- Counterexample to claim C4 as stated: with eleven recorded threat vectors
the summary's vector list has only ten entries — the recorded vector `t11` is
missing — so the summary does *not* contain every recorded ThreatVector. -/
theorem C4_counterexample :
    elevenVectorDB.threat_vectors.length = 11
    ∧ (get_security_metrics_summary elevenVectorDB).all_threat_vectors.length = 10
    ∧ ({ threat_type := "t11", count := 1, severity := "low", last_detected := 0 } : ThreatVector)
        ∈ elevenVectorDB.threat_vectors
    ∧ ({ threat_type := "t11", count := 1, severity := "low", last_detected := 0 } : ThreatVector)
        ∉ (get_security_metrics_summary elevenVectorDB).all_threat_vectors := by
  refine ⟨rfl, ?_, by decide, by decide⟩
  decide

/-- Claim C4, amended: the summary's vector list is ranked in descending order
of count and drawn from the recorded vectors, but it is truncated to the top
ten (`LIMIT 10`); only when at most ten vectors are recorded does it contain
every recorded ThreatVector. -/
theorem C4_summary_ranked_top10 (db : MetricsDB) :
    ((get_security_metrics_summary db).all_threat_vectors).Pairwise (fun a b => b.count ≤ a.count)
    ∧ (∀ v ∈ (get_security_metrics_summary db).all_threat_vectors, v ∈ db.threat_vectors)
    ∧ (get_security_metrics_summary db).all_threat_vectors.length
        = min 10 db.threat_vectors.length
    ∧ (db.threat_vectors.length ≤ 10 →
        (get_security_metrics_summary db).all_threat_vectors.Perm db.threat_vectors) := by
  have hall : (get_security_metrics_summary db).all_threat_vectors
      = (sortByCountDesc db.threat_vectors).take 10 := rfl
  have hsorted : (sortByCountDesc db.threat_vectors).Pairwise countGe :=
    List.sorted_insertionSort countGe db.threat_vectors
  have hperm : (sortByCountDesc db.threat_vectors).Perm db.threat_vectors :=
    List.perm_insertionSort countGe db.threat_vectors
  refine ⟨?_, ?_, ?_, ?_⟩
  · rw [hall]
    exact List.Pairwise.sublist (List.take_sublist 10 _) hsorted
  · intro v hv
    rw [hall] at hv
    exact hperm.subset ((List.take_sublist 10 _).subset hv)
  · rw [hall, List.length_take, hperm.length_eq]
  · intro hle
    rw [hall, List.take_of_length_le (by rw [hperm.length_eq]; exact hle)]
    exact hperm

/-- Witness for C4 (amended) at a concrete two-vector store, exercising the
at-most-ten case. -/
theorem C4_witness :
    ((get_security_metrics_summary
        { total_requests := 3, threats_blocked := 3, threats_flagged := 0,
          threat_vectors :=
            [ { threat_type := "A", count := 1, severity := "low", last_detected := 0 },
              { threat_type := "B", count := 2, severity := "high", last_detected := 1 } ] }).all_threat_vectors).Pairwise
        (fun a b => b.count ≤ a.count)
    ∧ (get_security_metrics_summary
        { total_requests := 3, threats_blocked := 3, threats_flagged := 0,
          threat_vectors :=
            [ { threat_type := "A", count := 1, severity := "low", last_detected := 0 },
              { threat_type := "B", count := 2, severity := "high", last_detected := 1 } ] }).all_threat_vectors.Perm
        [ { threat_type := "A", count := 1, severity := "low", last_detected := 0 },
          { threat_type := "B", count := 2, severity := "high", last_detected := 1 } ] :=
  ⟨(C4_summary_ranked_top10 _).1, (C4_summary_ranked_top10 _).2.2.2 (by decide)⟩

/-- The concrete scenario of claim C8: reset, then record `"DAN Attack"`
(critical, blocked) twice and `"Jailbreak"` (high, blocked) once. -/
def c8DB : MetricsDB :=
  record_threat_detection
    (record_threat_detection
      (record_threat_detection
        (reset_metrics
          { total_requests := 9, threats_blocked := 4, threats_flagged := 2,
            threat_vectors :=
              [ { threat_type := "Old", count := 3, severity := "low", last_detected := 0 } ] })
        "DAN Attack" "critical" true 0)
      "DAN Attack" "critical" true 1)
    "Jailbreak" "high" true 2

/-- Claim C8: after a reset, recording `("DAN Attack", "critical", blocked)`
twice then `("Jailbreak", "high", blocked)` once yields a summary with top
threat `"DAN Attack"` at count 2, three total requests, three blocked threats,
and a block rate of exactly 100. -/
theorem C8_concrete_summary :
    (get_security_metrics_summary c8DB).top_threat_name = "DAN Attack"
    ∧ (get_security_metrics_summary c8DB).top_threat_count = 2
    ∧ (get_security_metrics_summary c8DB).total_requests = 3
    ∧ (get_security_metrics_summary c8DB).threats_blocked = 3
    ∧ (get_security_metrics_summary c8DB).block_rate = 100 := by
  refine ⟨by decide, by decide, by decide, by decide, ?_⟩
  have h1 : (get_security_metrics_summary c8DB).block_rate
      = round2 (((3 : ℚ) / ((3 : Nat) : ℚ)) * 100) := by
    simp [get_security_metrics_summary, c8DB, record_threat_detection,
      increment_total_requests, increment_threats_blocked, reset_metrics]
  rw [h1]
  norm_num [round2, roundHalfEven]

/-! ## Authentication routes — `src/backend/app/routers/auth.py`

State of the relational store (users, login audit log, security events) is
modelled in memory.  `verify_password` and `create_token_pair` live in
`app/security.py`, which is not among the sources, so they enter as opaque
parameters of the request environment; the claims below condition on their
results only.  A fallible store write is modelled by `Except`: the Python
functions `log_login_attempt` and `create_security_event` perform a bare
`db.add` and `db.commit` with no exception handler, so a raising write is
represented by the environment flag `audit_write_fails` and propagates. -/

/-- A row of the `users` table (app/models.py). -/
structure User where
  id : Nat
  username : String
  password_hash : String
  role : String
  is_active : Bool
  last_login : Option Nat
deriving DecidableEq

/-- A row of the login audit table (`LoginAuditLog`, app/models.py:53). -/
structure LoginAuditLog where
  user_id : Option Nat
  username : String
  success : Bool
  ip_address : String
  user_agent : String
  failure_reason : Option String
  login_time : Nat
deriving DecidableEq

/-- A row of the security events table (`SecurityEvent`). -/
structure SecurityEvent where
  event_type : String
  severity : String
  description : String
  triggered_by : Option Nat
  ip_address : String
  user_agent : String
  metadata : Option (List (String × Nat))
deriving DecidableEq

/-- The relational store visible to the auth router. -/
structure AuthDB where
  users : List User
  audit_logs : List LoginAuditLog
  events : List SecurityEvent
deriving DecidableEq

/-- Ambient context of one login request: the password verifier and token
constructor (from the absent `app/security.py`, opaque here), whether the
audit-store write raises, the current time, the day-start cutoff computed by
`datetime.utcnow().replace(hour=0, minute=0, second=0)` at auth.py:193, the
configured `MAX_LOGIN_ATTEMPTS` (default 5, app/config.py:33) and
`JWT_ACCESS_TOKEN_EXPIRE_MINUTES` (default 30). -/
structure AuthEnv where
  verify_password : String → String → Bool
  create_token_pair : String → Nat → String → String × String
  audit_write_fails : Bool
  now : Nat
  day_start : Nat
  max_login_attempts : Nat
  access_token_expire_minutes : Nat

/-- `log_login_attempt` (auth.py:42-72): append one audit row and commit.
There is no exception handler, so a raising write surfaces as `.error`. -/
def log_login_attempt (env : AuthEnv) (db : AuthDB) (username : String) (success : Bool)
    (ip_address user_agent : String) (user_id : Option Nat) (failure_reason : Option String) :
    Except String AuthDB :=
  if env.audit_write_fails then .error "audit write failure"
  else .ok { db with audit_logs := db.audit_logs ++
    [{ user_id := user_id, username := username, success := success,
       ip_address := ip_address, user_agent := user_agent,
       failure_reason := failure_reason, login_time := env.now }] }

/-- `create_security_event` (auth.py:75-108): append one event row and commit.
No exception handler either. -/
def create_security_event (env : AuthEnv) (db : AuthDB)
    (event_type severity description ip_address user_agent : String)
    (triggered_by : Option Nat) (metadata : Option (List (String × Nat))) :
    Except String AuthDB :=
  if env.audit_write_fails then .error "audit write failure"
  else .ok { db with events := db.events ++
    [{ event_type := event_type, severity := severity, description := description,
       triggered_by := triggered_by, ip_address := ip_address, user_agent := user_agent,
       metadata := metadata }] }

/-- The brute-force counting query (auth.py:190-194): failed attempts for this
exact username whose `login_time` is at or after the day-start cutoff.  It runs
after the current failure has been committed, so it includes it. -/
def countRecentFailures (logs : List LoginAuditLog) (username : String) (day_start : Nat) : Nat :=
  (logs.filter (fun r =>
      r.username == username && r.success == false && decide (day_start ≤ r.login_time))).length

/-- `user.last_login = datetime.utcnow(); db.commit()` (auth.py:218-219). -/
def updateLastLogin (db : AuthDB) (uid : Nat) (now : Nat) : AuthDB :=
  { db with users := db.users.map (fun u =>
      if u.id = uid then { u with last_login := some now } else u) }

/-- The caller-visible outcome of `login`: a token response, an
`HTTPException` rendered by the framework (status, detail, headers), or an
exception escaping the handler (rendered as a generic 500 by the global
handler in app/main.py). -/
inductive LoginOutcome where
  | token (access_token refresh_token token_type : String) (expires_in : Nat) : LoginOutcome
  | http_error (status_code : Nat) (detail : String) (headers : List (String × String)) : LoginOutcome
  | unhandled (message : String) : LoginOutcome
deriving DecidableEq

/-- The `login` endpoint (auth.py:111-233): user lookup, active check,
password check with brute-force detection, token issuance; every outcome is
logged, and a raising audit write propagates (there is no handler). -/
def login (env : AuthEnv) (db : AuthDB) (username password ip_address user_agent : String) :
    LoginOutcome × AuthDB :=
  match db.users.find? (fun x => x.username == username) with
  | none =>
      match log_login_attempt env db username false ip_address user_agent none
          (some "User not found") with
      | .error e => (.unhandled e, db)
      | .ok db1 =>
          match create_security_event env db1 "suspicious_login" "low"
              ("Login attempt for non-existent user: " ++ username)
              ip_address user_agent none none with
          | .error e => (.unhandled e, db1)
          | .ok db2 =>
              (.http_error 401 "Invalid credentials" [("WWW-Authenticate", "Bearer")], db2)
  | some user =>
      if !user.is_active then
        match log_login_attempt env db username false ip_address user_agent (some user.id)
            (some "Account inactive") with
        | .error e => (.unhandled e, db)
        | .ok db1 =>
            match create_security_event env db1 "suspicious_login" "medium"
                ("Login attempt for inactive account: " ++ username)
                ip_address user_agent (some user.id) none with
            | .error e => (.unhandled e, db1)
            | .ok db2 => (.http_error 403 "Account is inactive" [], db2)
      else if !(env.verify_password password user.password_hash) then
        match log_login_attempt env db username false ip_address user_agent (some user.id)
            (some "Invalid password") with
        | .error e => (.unhandled e, db)
        | .ok db1 =>
            let recent_failures := countRecentFailures db1.audit_logs username env.day_start
            if env.max_login_attempts ≤ recent_failures then
              match create_security_event env db1 "brute_force_attempt" "high"
                  ("Multiple failed login attempts detected for user: " ++ username)
                  ip_address user_agent (some user.id)
                  (some [("failed_attempts", recent_failures + 1)]) with
              | .error e => (.unhandled e, db1)
              | .ok db2 =>
                  (.http_error 401 "Invalid credentials" [("WWW-Authenticate", "Bearer")], db2)
            else (.http_error 401 "Invalid credentials" [("WWW-Authenticate", "Bearer")], db1)
      else
        let tokens := env.create_token_pair user.username user.id user.role
        let db1 := updateLastLogin db user.id env.now
        match log_login_attempt env db1 username true ip_address user_agent (some user.id) none with
        | .error e => (.unhandled e, db1)
        | .ok db2 =>
            (.token tokens.1 tokens.2 "bearer" (env.access_token_expire_minutes * 60), db2)

/-- The audit row written on a wrong-password attempt (auth.py:184-187). -/
def failedLoginRecord (env : AuthEnv) (username ip ua : String) (uid : Nat) : LoginAuditLog :=
  { user_id := some uid, username := username, success := false, ip_address := ip,
    user_agent := ua, failure_reason := some "Invalid password", login_time := env.now }

/-- The brute-force event written at auth.py:197-206, carrying `n` in
`metadata.failed_attempts`. -/
def bruteForceEvent (username ip ua : String) (uid n : Nat) : SecurityEvent :=
  { event_type := "brute_force_attempt", severity := "high",
    description := "Multiple failed login attempts detected for user: " ++ username,
    triggered_by := some uid, ip_address := ip, user_agent := ua,
    metadata := some [("failed_attempts", n)] }

/-- All brute-force events currently recorded. -/
def bruteEvents (db : AuthDB) : List SecurityEvent :=
  db.events.filter (fun e => e.event_type == "brute_force_attempt")

/-- A sequence of login attempts with the same credentials, one environment
per attempt, oldest first; returns the final store. -/
def loginRun (envs : List AuthEnv) (db : AuthDB) (username pw ip ua : String) : AuthDB :=
  envs.foldl (fun d e => (login e d username pw ip ua).2) db

/-- An environment for one failed attempt of the C1 scenario: wrong password,
working audit store, day-start `D` at or before the current time, and the
default threshold of 5. -/
def goodAttemptEnv (pw hash : String) (D : Nat) (e : AuthEnv) : Prop :=
  e.verify_password pw hash = false ∧ e.audit_write_fails = false ∧ e.day_start = D
    ∧ D ≤ e.now ∧ e.max_login_attempts = 5

instance (pw hash : String) (D : Nat) (e : AuthEnv) : Decidable (goodAttemptEnv pw hash D e) :=
  inferInstanceAs (Decidable (_ ∧ _ ∧ _ ∧ _ ∧ _))

/-! ### Helper lemmas about `login` -/

theorem login_unknown_outcome (env : AuthEnv) (db : AuthDB) (username pw ip ua : String)
    (hfind : db.users.find? (fun x => x.username == username) = none)
    (hwrite : env.audit_write_fails = false) :
    (login env db username pw ip ua).1
      = .http_error 401 "Invalid credentials" [("WWW-Authenticate", "Bearer")] := by
  unfold login
  rw [hfind]
  simp [log_login_attempt, create_security_event, hwrite]

theorem login_wrong_password (env : AuthEnv) (db : AuthDB) (username pw ip ua : String)
    (u : User)
    (hfind : db.users.find? (fun x => x.username == username) = some u)
    (hactive : u.is_active = true)
    (hwrong : env.verify_password pw u.password_hash = false)
    (hwrite : env.audit_write_fails = false) :
    login env db username pw ip ua =
      (.http_error 401 "Invalid credentials" [("WWW-Authenticate", "Bearer")],
       { users := db.users
         audit_logs := db.audit_logs ++ [failedLoginRecord env username ip ua u.id]
         events := db.events ++
           (if env.max_login_attempts ≤
                countRecentFailures
                  (db.audit_logs ++ [failedLoginRecord env username ip ua u.id])
                  username env.day_start then
              [bruteForceEvent username ip ua u.id
                (countRecentFailures
                  (db.audit_logs ++ [failedLoginRecord env username ip ua u.id])
                  username env.day_start + 1)]
            else []) }) := by
  unfold login
  rw [hfind]
  simp only [hactive, hwrong, Bool.not_true, Bool.not_false, Bool.false_eq_true,
    if_false, if_true, log_login_attempt, create_security_event, hwrite,
    failedLoginRecord, bruteForceEvent]
  split
  · rfl
  · simp

theorem countRecentFailures_append_fail (logs : List LoginAuditLog) (env : AuthEnv)
    (username ip ua : String) (uid : Nat) (h : env.day_start ≤ env.now) :
    countRecentFailures (logs ++ [failedLoginRecord env username ip ua uid]) username env.day_start
      = countRecentFailures logs username env.day_start + 1 := by
  simp [countRecentFailures, List.filter_append, failedLoginRecord, h]

theorem loginRun_append (l1 l2 : List AuthEnv) (db : AuthDB) (username pw ip ua : String) :
    loginRun (l1 ++ l2) db username pw ip ua
      = loginRun l2 (loginRun l1 db username pw ip ua) username pw ip ua := by
  simp [loginRun, List.foldl_append]

theorem loginRun_below (envs : List AuthEnv) (db : AuthDB) (username pw ip ua : String)
    (u : User) (D : Nat)
    (hfind : db.users.find? (fun x => x.username == username) = some u)
    (hactive : u.is_active = true)
    (henvs : ∀ e ∈ envs, goodAttemptEnv pw u.password_hash D e)
    (hcount : countRecentFailures db.audit_logs username D + envs.length ≤ 4) :
    (loginRun envs db username pw ip ua).users = db.users
    ∧ countRecentFailures (loginRun envs db username pw ip ua).audit_logs username D
        = countRecentFailures db.audit_logs username D + envs.length
    ∧ (loginRun envs db username pw ip ua).events = db.events := by
  induction envs generalizing db with
  | nil => simp [loginRun]
  | cons e es ih =>
      obtain ⟨hv, hw, hD, hDn, hmax⟩ := henvs e (by simp)
      have hstep := login_wrong_password e db username pw ip ua u hfind hactive hv hw
      have hcnt1 : countRecentFailures
          (db.audit_logs ++ [failedLoginRecord e username ip ua u.id]) username D
            = countRecentFailures db.audit_logs username D + 1 := by
        have := countRecentFailures_append_fail db.audit_logs e username ip ua u.id
          (by rw [hD]; exact hDn)
        rwa [hD] at this
      have hbelow : ¬ e.max_login_attempts ≤
          countRecentFailures
            (db.audit_logs ++ [failedLoginRecord e username ip ua u.id]) username e.day_start := by
        rw [hD, hcnt1, hmax]
        simp only [List.length_cons] at hcount
        omega
      have hstate : (login e db username pw ip ua).2 =
          { users := db.users
            audit_logs := db.audit_logs ++ [failedLoginRecord e username ip ua u.id]
            events := db.events } := by
        rw [hstep]
        simp [hbelow]
      have hrun : loginRun (e :: es) db username pw ip ua
          = loginRun es ((login e db username pw ip ua).2) username pw ip ua := by
        simp [loginRun]
      rw [hrun, hstate]
      have hih := ih { users := db.users
                       audit_logs := db.audit_logs ++ [failedLoginRecord e username ip ua u.id]
                       events := db.events }
        hfind (fun x hx => henvs x (by simp [hx]))
        (by simp only [List.length_cons] at hcount
            simp only [hcnt1, List.length_cons]
            omega)
      refine ⟨hih.1, ?_, hih.2.2⟩
      rw [hih.2.1, hcnt1]
      simp only [List.length_cons]
      omega

/-! ### Claims C1, C2, C3 -/

/-- Claim C1, amended: for an existing active account with no same-day failed
attempts, the 5th consecutive wrong-password attempt (default threshold 5)
emits exactly one `high`-severity `brute_force_attempt` SecurityEvent while
the 4th emits none — but the event's `metadata.failed_attempts` is 6, one more
than the count of same-day failures including the current attempt (the code
counts after committing the current failure and then adds 1). -/
theorem C1_fifth_attempt_emits_one_brute_event (envs : List AuthEnv) (db : AuthDB)
    (username pw ip ua : String) (u : User) (D : Nat)
    (hfind : db.users.find? (fun x => x.username == username) = some u)
    (hactive : u.is_active = true)
    (henvs : ∀ e ∈ envs, goodAttemptEnv pw u.password_hash D e)
    (hlen : envs.length = 5)
    (hclean : countRecentFailures db.audit_logs username D = 0) :
    bruteEvents (loginRun (envs.take 4) db username pw ip ua) = bruteEvents db
    ∧ (loginRun envs db username pw ip ua).events
        = (loginRun (envs.take 4) db username pw ip ua).events
            ++ [bruteForceEvent username ip ua u.id 6]
    ∧ bruteEvents (loginRun envs db username pw ip ua)
        = bruteEvents db ++ [bruteForceEvent username ip ua u.id 6] := by
  have h4 := loginRun_below (envs.take 4) db username pw ip ua u D hfind hactive
    (fun e he => henvs e (List.take_subset 4 envs he))
    (by rw [hclean, List.length_take, hlen]; omega)
  obtain ⟨e5, he5⟩ : ∃ e5, envs.drop 4 = [e5] :=
    List.length_eq_one.mp (by rw [List.length_drop, hlen])
  have he5mem : e5 ∈ envs := List.drop_subset 4 envs (by rw [he5]; simp)
  obtain ⟨hv, hw, hD, hDn, hmax⟩ := henvs e5 he5mem
  have hsplit : loginRun envs db username pw ip ua
      = (login e5 (loginRun (envs.take 4) db username pw ip ua) username pw ip ua).2 := by
    conv_lhs => rw [show envs = envs.take 4 ++ envs.drop 4 from (List.take_append_drop 4 envs).symm]
    rw [loginRun_append, he5]
    simp [loginRun]
  set db4 := loginRun (envs.take 4) db username pw ip ua with hdb4
  have hfind4 : db4.users.find? (fun x => x.username == username) = some u := by
    rw [h4.1]; exact hfind
  have hcnt4 : countRecentFailures db4.audit_logs username D = 4 := by
    rw [h4.2.1, hclean, List.length_take, hlen]
    omega
  have hcnt5 : countRecentFailures
      (db4.audit_logs ++ [failedLoginRecord e5 username ip ua u.id]) username D = 5 := by
    have := countRecentFailures_append_fail db4.audit_logs e5 username ip ua u.id
      (by rw [hD]; exact hDn)
    rw [hD] at this
    rw [this, hcnt4]
  have hcond : e5.max_login_attempts ≤
      countRecentFailures
        (db4.audit_logs ++ [failedLoginRecord e5 username ip ua u.id]) username e5.day_start := by
    rw [hD, hcnt5, hmax]
  have hstep := login_wrong_password e5 db4 username pw ip ua u hfind4 hactive hv hw
  have hstate : (login e5 db4 username pw ip ua).2 =
      { users := db4.users
        audit_logs := db4.audit_logs ++ [failedLoginRecord e5 username ip ua u.id]
        events := db4.events ++ [bruteForceEvent username ip ua u.id 6] } := by
    rw [hstep]
    simp only [if_pos hcond]
    rw [hD, hcnt5]
  have hbrute4 : bruteEvents db4 = bruteEvents db := by
    unfold bruteEvents
    rw [h4.2.2]
  refine ⟨hbrute4, ?_, ?_⟩
  · rw [hsplit, hstate]
  · rw [hsplit, hstate]
    unfold bruteEvents
    simp only [List.filter_append]
    rw [h4.2.2]
    simp [bruteForceEvent]

/-- A concrete request environment for the counterexamples and witnesses:
the verifier accepts exactly the stored hash, the audit store works, and the
configuration defaults (threshold 5, 30-minute access tokens) apply. -/
def testEnv : AuthEnv :=
  { verify_password := fun p h => p == h
    create_token_pair := fun username _ _ => ("access-" ++ username, "refresh-" ++ username)
    audit_write_fails := false
    now := 10
    day_start := 0
    max_login_attempts := 5
    access_token_expire_minutes := 30 }

/-- The same environment with a raising audit store. -/
def failingAuditEnv : AuthEnv := { testEnv with audit_write_fails := true }

/-- A concrete active user. -/
def alice : User :=
  { id := 1, username := "alice", password_hash := "secret", role := "admin",
    is_active := true, last_login := none }

/-- A store holding only `alice`, with empty audit log and event tables. -/
def aliceDB : AuthDB := { users := [alice], audit_logs := [], events := [] }

/-- Counterexample to claim C1 as stated: in the concrete 5-wrong-password
scenario the 4th attempt emits no `brute_force_attempt` event and the 5th
emits exactly one — but its `metadata.failed_attempts` is 6, not 5 as the
claim asserts. -/
theorem C1_counterexample :
    bruteEvents (loginRun (List.replicate 4 testEnv) aliceDB "alice" "wrong" "ip" "ua") = []
    ∧ bruteEvents (loginRun (List.replicate 5 testEnv) aliceDB "alice" "wrong" "ip" "ua")
        = [bruteForceEvent "alice" "ip" "ua" 1 6]
    ∧ (bruteEvents (loginRun (List.replicate 5 testEnv) aliceDB "alice" "wrong" "ip" "ua")).map
          SecurityEvent.metadata
        = [some [("failed_attempts", 6)]]
    ∧ (bruteEvents (loginRun (List.replicate 5 testEnv) aliceDB "alice" "wrong" "ip" "ua")).map
          SecurityEvent.metadata
        ≠ [some [("failed_attempts", 5)]] := by
  refine ⟨by decide, by decide, by decide, by decide⟩

/-- Witness for C1 (amended) at the concrete 5-attempt scenario. -/
theorem C1_witness :
    aliceDB.users.find? (fun x => x.username == "alice") = some alice
    ∧ alice.is_active = true
    ∧ (∀ e ∈ List.replicate 5 testEnv, goodAttemptEnv "wrong" alice.password_hash 0 e)
    ∧ (List.replicate 5 testEnv).length = 5
    ∧ countRecentFailures aliceDB.audit_logs "alice" 0 = 0
    ∧ (bruteEvents (loginRun ((List.replicate 5 testEnv).take 4) aliceDB "alice" "wrong" "ip" "ua")
          = bruteEvents aliceDB
        ∧ (loginRun (List.replicate 5 testEnv) aliceDB "alice" "wrong" "ip" "ua").events
            = (loginRun ((List.replicate 5 testEnv).take 4) aliceDB "alice" "wrong" "ip" "ua").events
                ++ [bruteForceEvent "alice" "ip" "ua" alice.id 6]
        ∧ bruteEvents (loginRun (List.replicate 5 testEnv) aliceDB "alice" "wrong" "ip" "ua")
            = bruteEvents aliceDB ++ [bruteForceEvent "alice" "ip" "ua" alice.id 6]) :=
  ⟨by decide, by decide, by decide, by decide, by decide,
    C1_fifth_attempt_emits_one_brute_event (List.replicate 5 testEnv) aliceDB
      "alice" "wrong" "ip" "ua" alice 0
      (by decide) (by decide) (by decide) (by decide) (by decide)⟩

/-- Claim C2: an unknown username and a known active username with a wrong
password produce identical caller-visible rejections — status 401, detail
`"Invalid credentials"`, a `WWW-Authenticate: Bearer` header — so the response
alone never reveals whether the username exists. -/
theorem C2_enumeration_resistance (env : AuthEnv) (db : AuthDB)
    (unknown known pw1 pw2 ip ua : String) (u : User)
    (hunknown : db.users.find? (fun x => x.username == unknown) = none)
    (hknown : db.users.find? (fun x => x.username == known) = some u)
    (hactive : u.is_active = true)
    (hwrong : env.verify_password pw2 u.password_hash = false)
    (hwrite : env.audit_write_fails = false) :
    (login env db unknown pw1 ip ua).1 = (login env db known pw2 ip ua).1
    ∧ (login env db unknown pw1 ip ua).1
        = .http_error 401 "Invalid credentials" [("WWW-Authenticate", "Bearer")] := by
  have h1 := login_unknown_outcome env db unknown pw1 ip ua hunknown hwrite
  have h2 := login_wrong_password env db known pw2 ip ua u hknown hactive hwrong hwrite
  refine ⟨?_, h1⟩
  rw [h1, h2]

/-- Witness for C2: `bob` is unknown, `alice` exists and is active, and the
two rejections coincide. -/
theorem C2_witness :
    aliceDB.users.find? (fun x => x.username == "bob") = none
    ∧ aliceDB.users.find? (fun x => x.username == "alice") = some alice
    ∧ alice.is_active = true
    ∧ testEnv.verify_password "wrong" alice.password_hash = false
    ∧ testEnv.audit_write_fails = false
    ∧ ((login testEnv aliceDB "bob" "anything" "ip" "ua").1
          = (login testEnv aliceDB "alice" "wrong" "ip" "ua").1
        ∧ (login testEnv aliceDB "bob" "anything" "ip" "ua").1
            = .http_error 401 "Invalid credentials" [("WWW-Authenticate", "Bearer")]) :=
  ⟨by decide, by decide, by decide, by decide, by decide,
    C2_enumeration_resistance testEnv aliceDB "bob" "alice" "anything" "wrong" "ip" "ua" alice
      (by decide) (by decide) (by decide) (by decide) (by decide)⟩

/-- Counterexample to claim C3 as stated: with valid credentials, a raising
audit write changes the caller-visible outcome of `login` from the token
response to an escaping error — the audit failure does surface. -/
theorem C3_counterexample :
    (login failingAuditEnv aliceDB "alice" "secret" "ip" "ua").1
        = .unhandled "audit write failure"
    ∧ (login testEnv aliceDB "alice" "secret" "ip" "ua").1
        = .token "access-alice" "refresh-alice" "bearer" 1800
    ∧ (login failingAuditEnv aliceDB "alice" "secret" "ip" "ua").1
        ≠ (login testEnv aliceDB "alice" "secret" "ip" "ua").1 := by
  refine ⟨by decide, by decide, by decide⟩

/-- Claim C3, amended: `log_login_attempt` and `create_security_event` have no
exception handler, so when the audit write raises, the exception propagates
out of `login` on every path and the caller-visible outcome is the audit
error, not the authentication result — audit failure is fatal to the flow. -/
theorem C3_audit_write_failure_is_fatal (env : AuthEnv) (db : AuthDB)
    (username pw ip ua : String)
    (hfail : env.audit_write_fails = true) :
    (login env db username pw ip ua).1 = .unhandled "audit write failure" := by
  unfold login
  cases hfind : db.users.find? (fun x => x.username == username) with
  | none => simp [log_login_attempt, hfail]
  | some u =>
      cases ha : u.is_active with
      | false => simp [ha, log_login_attempt, hfail]
      | true =>
          cases hv : env.verify_password pw u.password_hash with
          | false => simp [ha, hv, log_login_attempt, hfail]
          | true => simp [ha, hv, log_login_attempt, hfail]

/-- Witness for C3 (amended) at the concrete failing-store environment. -/
theorem C3_witness :
    failingAuditEnv.audit_write_fails = true
    ∧ (login failingAuditEnv aliceDB "alice" "secret" "ip" "ua").1
        = .unhandled "audit write failure" :=
  ⟨rfl, C3_audit_write_failure_is_fatal failingAuditEnv aliceDB "alice" "secret" "ip" "ua" rfl⟩

end HackathonUI
